import Mathlib

/-!
Verification of the build-output caching and fallback orchestration layer of
the agent build toolkit: the buildx build invoker with its bounded wait and
remote-builder fallback, the dependency build cache, the staged image builder,
the EC2 teardown safety guard and the prefix-list cleanup.

Shallow embedding: the Python functions are translated into executable Lean
definitions.  External effects (child processes, the filesystem, the cloud
API) are represented by explicit event traces and oracle records describing
the behaviour of the outside world.
-/

/-- A filesystem path, mirroring pathlib: a parent directory (as a component
list) together with a final name component. -/
structure PyPath where
  parent : List String
  name : String
deriving DecidableEq

/-- All components of a path. -/
def PyPath.components (p : PyPath) : List String :=
  p.parent ++ [p.name]

/-- Render a path as a string (components joined by a slash). -/
def PyPath.toStr (p : PyPath) : String :=
  String.intercalate "/" p.components

/-- The pathlib child operator: p / s. -/
def PyPath.child (p : PyPath) (s : String) : PyPath :=
  ⟨p.components, s⟩

/-- Whether the character list pat occurs at the start of l. -/
def listStartsWithB : List Char → List Char → Bool
  | [], _ => true
  | _ :: _, [] => false
  | p :: ps, c :: cs => p == c && listStartsWithB ps cs

/-- Whether pat occurs as a contiguous sublist of l (the Python in operator
on strings, via character lists). -/
def listHasSub (pat : List Char) : List Char → Bool
  | [] => pat.isEmpty
  | c :: cs => listStartsWithB pat (c :: cs) || listHasSub pat cs

/-- The Python membership test pat in s on strings. -/
def strContains (pat s : String) : Bool :=
  listHasSub pat.toList s.toList

/-- Python truthiness of an optional string (None and the empty string are
falsy). -/
def pyTruthy : Option String → Bool
  | none => false
  | some s => s ≠ ""

/-- Modelled from the spec: the enumerated CPU target architectures
(x86_64, aarch64, armv7).  The enum class itself lives in a constants module
that is not part of the source tree; the spec describes it as an immutable
enumeration mapping to an external platform identifier string. -/
inductive CpuArch
  | x86_64
  | AARCH64
  | ARMV7
deriving DecidableEq

/-- Modelled from the spec: the string value of the architecture enum member,
used as a component of cache names. -/
def CpuArch.value : CpuArch → String
  | .x86_64 => "x86_64"
  | .AARCH64 => "aarch64"
  | .ARMV7 => "armv7"

/-- Modelled from the spec: the external docker platform identifier string of
an architecture. -/
def CpuArch.as_docker_platform : CpuArch → String
  | .x86_64 => "linux/amd64"
  | .AARCH64 => "linux/arm64"
  | .ARMV7 => "linux/arm/v7"

/-- Modelled from the spec: the fixed output root directory under which local
build caches and build results are kept. -/
def AGENT_BUILD_OUTPUT_PATH : PyPath :=
  ⟨[], "agent_build_output"⟩

/-- Modelled from the spec: the agent requirements specification string (a
constant of the missing constants module, passed through as a build
argument). -/
def AGENT_REQUIREMENTS : String :=
  "agent-requirements"

/-- Modelled from the spec: the development coverage requirement string (a
constant of the missing constants module, passed through as a build
argument). -/
def REQUIREMENTS_DEV_COVERAGE : String :=
  "coverage==4.5.4"

/-- The process environment of the build module: USE_GHA_CACHE,
CACHE_VERSION and ALLOW_FALLBACK_TO_REMOTE_BUILDER. -/
structure BuildEnv where
  use_gha_cache : Bool
  cache_version : String
  allow_fallback_to_remote_builder : Bool
deriving DecidableEq

/-- The polymorphic build output target of buildx_build:
LocalDirectoryBuildOutput, DockerImageBuildOutput or OCITarballBuildOutput
(dest plus extract flag, extract defaults to true in the source). -/
inductive BuildOutput
  | localDirectory (dest : PyPath)
  | dockerImage (name : String)
  | ociTarball (dest : PyPath) (extract : Bool)
deriving DecidableEq

/-- OCITarballBuildOutput.tarball_path: with extract the tarball is placed
next to the destination directory under the destination name plus a .tar
suffix, otherwise the destination itself is the tarball. -/
def ociTarballPath (dest : PyPath) (extract : Bool) : PyPath :=
  if extract then ⟨dest.parent, dest.name ++ ".tar"⟩ else dest

/-- BuildOutput.to_docker_output_option. -/
def BuildOutput.to_docker_output_option : BuildOutput → String
  | .localDirectory dest => "type=local,dest=" ++ dest.toStr
  | .dockerImage _ => "type=docker"
  | .ociTarball dest extract => "type=oci,dest=" ++ (ociTarballPath dest extract).toStr

/-- _get_gha_cache_scope: the cache name, suffixed with an underscore and the
cache version when CACHE_VERSION is set. -/
def _get_gha_cache_scope (env : BuildEnv) (name : String) : String :=
  if env.cache_version ≠ "" then name ++ "_" ++ env.cache_version else name

/-- _get_local_cache_dir: the local cache directory keyed by the bare cache
name under the fixed output root. -/
def _get_local_cache_dir (name : String) : PyPath :=
  (AGENT_BUILD_OUTPUT_PATH.child "docker_cache").child name

/-- The architecture argument of buildx_build: either a single CpuArch value
or a list of them. -/
inductive ArchArg
  | single (a : CpuArch)
  | list (l : List CpuArch)
deriving DecidableEq

/-- The used_architectures list assembled at the start of buildx_build. -/
def ArchArg.used : ArchArg → List CpuArch
  | .single a => [a]
  | .list l => l

/-- The parameters of one buildx_build call (keyword arguments of the Python
function; dictionaries are insertion-ordered association lists). -/
structure BuildxParams where
  dockerfile_path : PyPath
  context_path : PyPath
  architecture : ArchArg
  build_args : List (String × String)
  build_contexts : List (String × String)
  stage : Option String
  output : Option BuildOutput
  cache_name : Option String
  fallback_to_remote_builder : Bool
  capture_output : Bool
deriving DecidableEq

/-- The cache-from and cache-to directives generated for a truthy cache name:
a GHA cache scope pair under USE_GHA_CACHE, a local cache directory pair
otherwise. -/
def cacheCmdArgs (env : BuildEnv) (cache_name : Option String) : List String :=
  match cache_name with
  | none => []
  | some n =>
    if n = "" then []
    else if env.use_gha_cache then
      ["--cache-from=type=gha,scope=" ++ _get_gha_cache_scope env n,
       "--cache-to=type=gha,scope=" ++ _get_gha_cache_scope env n]
    else
      ["--cache-from=type=local,src=" ++ (_get_local_cache_dir n).toStr,
       "--cache-to=type=local,dest=" ++ (_get_local_cache_dir n).toStr]

/-- The full argument list assembled by buildx_build before launching the
child process: file reference, platform flags, build arguments, named build
contexts, optional target stage, optional cache directives, optional output
directive (plus an image tag for docker outputs) and the context path as the
final positional argument. -/
def buildxCmdArgs (env : BuildEnv) (p : BuildxParams) : List String :=
  ["docker", "buildx", "build", "-f=" ++ p.dockerfile_path.toStr, "--progress=plain"]
  ++ p.architecture.used.map (fun a => "--platform=" ++ a.as_docker_platform)
  ++ p.build_args.map (fun kv => "--build-arg=" ++ kv.1 ++ "=" ++ kv.2)
  ++ p.build_contexts.map (fun kv => "--build-context=" ++ kv.1 ++ "=" ++ kv.2)
  ++ (match p.stage with
      | some s => if s = "" then [] else ["--target=" ++ s]
      | none => [])
  ++ cacheCmdArgs env p.cache_name
  ++ (match p.output with
      | some o =>
        ("--output=" ++ o.to_docker_output_option) ::
          (match o with
           | .dockerImage n => ["-t=" ++ n]
           | _ => [])
      | none => [])
  ++ [p.context_path.toStr]

/-- Description of how the outside world behaves during one buildx_build
call: whether the child build process completes within the bounded wait, the
exit codes and combined output of the local and remote builds, the name of
the lazily resolved remote builder, and the archive contents the build engine
produces for the requested output. -/
structure WorldBehavior where
  localCompletesInTime : Bool
  localExitCode : Int
  localOutput : String
  remoteBuilderName : String
  remoteExitCode : Int
  remoteOutput : String
  producedArchive : List (List String × String)
deriving DecidableEq

/-- Observable events of one buildx_build call, in order of occurrence. -/
inductive BuildEvent
  | launchLocal (args : List String) (timeout : Option Nat)
  | killProcessTree
  | launchRemote (args : List String) (timeout : Option Nat)
  | extractTarball (tarball : PyPath) (dest : PyPath)
deriving DecidableEq

/-- Python exceptions that the embedded functions can raise. -/
inductive PyError
  | exception (msg : String)
  | calledProcessError
  | unboundLocalError (varName : String)
  | typeError (msg : String)
  | assertionError (msg : String)
  | keyError (k : String)
  | timeoutError (msg : String)
deriving DecidableEq

/-- Result of running a piece of Python code: a value or a raised
exception. -/
inductive PyResult (α : Type)
  | ok (v : α)
  | exn (e : PyError)
deriving DecidableEq

/-- An on-disk object: a plain file with contents, or a tar archive whose
entries are relative component paths with file contents. -/
inductive FsNode
  | file (content : String)
  | tarArchive (entries : List (List String × String))
deriving DecidableEq

/-- A filesystem: newest write first, lookup returns the newest entry. -/
abbrev Fs := List (List String × FsNode)

def fsWrite (fs : Fs) (p : List String) (n : FsNode) : Fs :=
  (p, n) :: fs

def fsGet (fs : Fs) (p : List String) : Option FsNode :=
  (fs.find? (fun e => e.1 == p)).map Prod.snd

/-- What the build engine writes on a successful build, per output target: a
local directory output materialises the produced entries under the
destination, an OCI tarball output writes the archive as a tar file at the
tarball path, a docker image output touches nothing on disk. -/
def engineWriteOutput (fs : Fs) (output : Option BuildOutput)
    (ar : List (List String × String)) : Fs :=
  match output with
  | none => fs
  | some (.dockerImage _) => fs
  | some (.localDirectory dest) =>
    ar.foldl (fun acc e => fsWrite acc (dest.components ++ e.1) (.file e.2)) fs
  | some (.ociTarball dest extract) =>
    fsWrite fs (ociTarballPath dest extract).components (.tarArchive ar)

/-- tarfile extractall: write every archive entry as a file under the
destination directory. -/
def tarExtractAll (fs : Fs) (ar : List (List String × String)) (dest : PyPath) : Fs :=
  ar.foldl (fun acc e => fsWrite acc (dest.components ++ e.1) (.file e.2)) fs

/-- The outcome of one buildx_build call: its event trace, its Python result
(the captured output for capture_output, None otherwise, or a raised
exception) and the final filesystem. -/
structure BuildRunResult where
  events : List BuildEvent
  result : PyResult (Option String)
  fs : Fs
deriving DecidableEq

/-- The final lines of buildx_build: if the output is an OCI tarball
requested with extraction, open the tarball at its tarball path and untar it
into the destination directory. -/
def extractStep (events : List BuildEvent) (fs : Fs) (output : Option BuildOutput) :
    BuildRunResult :=
  match output with
  | some (.ociTarball dest true) =>
    let tp := ociTarballPath dest true
    match fsGet fs tp.components with
    | some (.tarArchive ar) =>
      ⟨events ++ [.extractTarball tp dest], .ok none, tarExtractAll fs ar dest⟩
    | _ => ⟨events, .exn (.exception "tarfile open failed"), fs⟩
  | _ => ⟨events, .ok none, fs⟩

/-- The bounded wait applied to the child build process: set exactly when the
cache name is truthy, the fallback flag is set, fallback is globally allowed
and a single architecture is targeted; 120 seconds under the GHA cache and 40
seconds otherwise. -/
def buildxFallbackTimeout (env : BuildEnv) (p : BuildxParams) : Option Nat :=
  let single_arch :=
    match p.architecture with
    | .single _ => true
    | .list l => l.length == 1
  let allow_fallback := env.allow_fallback_to_remote_builder && single_arch
  let do_fallback := pyTruthy p.cache_name && p.fallback_to_remote_builder && allow_fallback
  if do_fallback then some (if env.use_gha_cache then 60 * 2 else 40) else none

/-- Shallow embedding of buildx_build (build.py lines 85-241).  The command
line is assembled by buildxCmdArgs and the bounded wait by
buildxFallbackTimeout.  On expiry of the bounded wait the child process tree
is terminated and the build is reissued on a remote builder with the
identical argument list plus a builder flag, awaited without a timeout and
checked.  The local variable stdout is only assigned when communicate
returns normally; referencing it after a timeout raises UnboundLocalError,
and writing the decoded remote stdout string into the bytes buffer raises
TypeError. -/
def buildx_build (env : BuildEnv) (w : WorldBehavior) (p : BuildxParams) (fs0 : Fs) :
    BuildRunResult :=
  let cmd_args := buildxCmdArgs env p
  let fallback_timeout : Option Nat := buildxFallbackTimeout env p
  let timedOut := fallback_timeout.isSome && !w.localCompletesInTime
  let ev0 : List BuildEvent := [.launchLocal cmd_args fallback_timeout]
  if timedOut then
    let ev1 := ev0 ++ [.killProcessTree]
    if p.capture_output then
      ⟨ev1, .exn (.unboundLocalError "stdout"), fs0⟩
    else
      let remote_args := cmd_args ++ ["--builder=" ++ w.remoteBuilderName]
      let ev2 := ev1 ++ [.launchRemote remote_args none]
      if w.remoteExitCode ≠ 0 then
        ⟨ev2, .exn .calledProcessError, fs0⟩
      else
        let fs1 := engineWriteOutput fs0 p.output w.producedArchive
        if p.capture_output then
          ⟨ev2, .exn (.typeError "a bytes-like object is required, not str"), fs1⟩
        else
          extractStep ev2 fs1 p.output
  else
    if w.localExitCode ≠ 0 then
      ⟨ev0, .exn (.exception "Build command has failed."), fs0⟩
    else
      let fs1 := engineWriteOutput fs0 p.output w.producedArchive
      let r := extractStep ev0 fs1 p.output
      match r.result with
      | .ok _ => ⟨r.events, .ok (if p.capture_output then some w.localOutput else none), r.fs⟩
      | _ => r

/-- Whether an event is a remote-builder launch. -/
def BuildEvent.isRemote : BuildEvent → Bool
  | .launchRemote _ _ => true
  | _ => false

/-- Concrete buildx_build call satisfying all preconditions of claim C1
except that output capture is enabled. -/
def c1ceParams : BuildxParams :=
  ⟨⟨["images"], "Dockerfile"⟩, ⟨[], "images"⟩, ArchArg.single CpuArch.x86_64,
   [], [], none, none, some "some-cache", true, true⟩

def c1ceEnv : BuildEnv := ⟨false, "", true⟩

def c1ceWorld : WorldBehavior := ⟨false, 0, "local-log", "remote-builder-0", 0, "remote-log", []⟩

/-- Concrete buildx_build call for claim C3: output capture requested, all
fallback preconditions satisfied (GHA cache backend, so the bounded wait is
120 seconds), and a child build that does not finish within the bound. -/
def c3Params : BuildxParams :=
  ⟨⟨["deps"], "dependencies.Dockerfile"⟩, ⟨[], "deps"⟩, ArchArg.single CpuArch.AARCH64,
   [("BASE_DISTRO", "ubuntu")], [], some "requirement_libs", none,
   some "container-image-build-ubuntu-requirement_libs_aarch64", true, true⟩

def c3Env : BuildEnv := ⟨true, "", true⟩

def c3World : WorldBehavior :=
  ⟨false, 0, "captured", "remote-builder-arm", 0, "remote-captured", []⟩

def c7Env : BuildEnv := ⟨false, "", false⟩

def c7World : WorldBehavior :=
  ⟨true, 0, "", "", 0, "",
   [(["oci-layout"], "layout-marker"), (["blobs", "sha256", "a"], "blob-a")]⟩

def c7Params : BuildxParams :=
  ⟨⟨["images"], "Dockerfile"⟩, ⟨[], "images"⟩, ArchArg.list [CpuArch.x86_64],
   [], [], none, some (BuildOutput.ociTarball ⟨["out"], "img"⟩ true), none, false, false⟩

/-- The image type of a containerised agent builder. -/
inductive ImageType
  | K8S
  | DOCKER_JSON
  | DOCKER_SYSLOG
  | DOCKER_API
deriving DecidableEq

/-- ImageType member values. -/
def ImageType.value : ImageType → String
  | .K8S => "k8s"
  | .DOCKER_JSON => "docker-json"
  | .DOCKER_SYSLOG => "docker-syslog"
  | .DOCKER_API => "docker-api"

/-- _IMAGE_REGISTRY_NAMES: registry image name variants per image type. -/
def _IMAGE_REGISTRY_NAMES : ImageType → List String
  | .K8S => ["scalyr-k8s-agent"]
  | .DOCKER_JSON => ["scalyr-agent-docker-json"]
  | .DOCKER_SYSLOG => ["scalyr-agent-docker-syslog", "scalyr-agent-docker"]
  | .DOCKER_API => ["scalyr-agent-docker-api"]

/-- The class-level attributes of one generated ContainerisedAgentBuilder
subclass. -/
structure BuilderClass where
  NAME : String
  BASE_DISTRO : String
  IMAGE_TYPE : ImageType
  TAG_SUFFIXES : List String
deriving DecidableEq

/-- The builder subclass generated for one (image type, base distro) pair:
the tag suffix list holds the distro suffix, plus the empty suffix for
ubuntu. -/
def builderClassFor (distro : String) (it : ImageType) : BuilderClass :=
  ⟨it.value ++ "-" ++ distro, distro, it,
   ["-" ++ distro] ++ (if distro = "ubuntu" then [""] else [])⟩

/-- ALL_CONTAINERISED_AGENT_BUILDERS: the name-keyed registry of generated
builder classes, ubuntu first, image types in declaration order. -/
def ALL_CONTAINERISED_AGENT_BUILDERS : List (String × BuilderClass) :=
  ["ubuntu", "alpine"].flatMap (fun distro =>
    [ImageType.K8S, ImageType.DOCKER_JSON, ImageType.DOCKER_SYSLOG,
     ImageType.DOCKER_API].map (fun it =>
      ((builderClassFor distro it).NAME, builderClassFor distro it)))

/-- generate_final_registry_tags: append one final name per (image name,
tag, tag suffix) combination, image name as the outer loop, tag in the
middle, tag suffix innermost. -/
def generate_final_registry_tags (b : BuilderClass) (registry user : String)
    (tags : List String) : List String :=
  (_IMAGE_REGISTRY_NAMES b.IMAGE_TYPE).foldl (fun acc image_name =>
    tags.foldl (fun acc2 tag =>
      b.TAG_SUFFIXES.foldl (fun acc3 tag_suffix =>
        acc3 ++ [registry ++ "/" ++ user ++ "/" ++ image_name ++ ":" ++ tag ++ tag_suffix])
        acc2) acc) []

/-- Age threshold (in seconds, as used by the code) after which a prefix
list entry may be cleaned up: 60 * 7 = 420. -/
def PREFIX_LIST_ENTRY_REMOVE_THRESHOLD : Int := 60 * 7

/-- A managed prefix list entry: its CIDR together with the JSON description
fields the code reads.  timeVal is the numeric time field; dWorkflowId is
the workflow_id field (missing key, null, or a string). -/
structure PLEntry where
  cidr : String
  timeVal : Int
  dWorkflowId : Option (Option String)
deriving DecidableEq

/-- Python dict assignment d[k] = v: replace in place when the key exists,
append otherwise. -/
def pyDictInsert (d : List (String × PLEntry)) (k : String) (v : PLEntry) :
    List (String × PLEntry) :=
  if d.any (fun kv => kv.1 == k) then
    d.map (fun kv => if kv.1 == k then (k, v) else kv)
  else d ++ [(k, v)]

/-- The second phase of cleanup_old_prefix_list_entries: for a truthy
ec2_objects_name_prefix, add every entry whose description workflow_id field
is truthy and equal to the given value; a missing workflow_id key raises
KeyError. -/
def cleanupWorkflowPhase (pfx : String) :
    List PLEntry → List (String × PLEntry) → PyResult (List (String × PLEntry))
  | [], d => .ok d
  | e :: rest, d =>
    match e.dWorkflowId with
    | none => .exn (.keyError "workflow_id")
    | some w =>
      let truthy := match w with | none => false | some s => s ≠ ""
      if truthy && w == some pfx then
        cleanupWorkflowPhase pfx rest (pyDictInsert d e.cidr e)
      else cleanupWorkflowPhase pfx rest d

/-- cleanup_old_prefix_list_entries, returning the list of entries scheduled
for removal (the values of the entries_to_remove dict, in insertion order):
first every entry whose timestamp is at least the removal threshold in the
past, then, only when a truthy name prefix is supplied, every entry whose
workflow_id matches it. -/
def cleanup_old_prefix_list_entries (entries : List PLEntry) (current_time : Int)
    (pfx : Option String) : PyResult (List PLEntry) :=
  let d1 := entries.foldl (fun d e =>
    if e.timeVal ≤ current_time - PREFIX_LIST_ENTRY_REMOVE_THRESHOLD then
      pyDictInsert d e.cidr e
    else d) []
  match (if pyTruthy pfx then cleanupWorkflowPhase (pfx.getD "") entries d1
         else .ok d1) with
  | .ok d => .ok (d.map Prod.snd)
  | .exn e => .exn e

/-- The fixed automation marker string carried in the name of every node
created by this tooling. -/
def INSTANCE_NAME_STRING : String := "automated-agent-ci-cd"

/-- An EC2 node as seen by the teardown code: its name and its instance
id. -/
structure Ec2Node where
  name : String
  id : String
deriving DecidableEq

/-- An EBS volume: its id, size in GB and the instance id recorded in its
extra attributes. -/
structure Ec2Volume where
  id : String
  size : Nat
  instance_id : Option String
deriving DecidableEq

/-- Behaviour of the cloud API during one destroy_node_and_cleanup call:
whether node.destroy raises (and with what message), the volumes listed for
the node, and whether the volumes report detached within the bounded
wait. -/
structure Ec2World where
  nodeDestroyError : Option String
  volumes : List Ec2Volume
  volumesDetach : Bool
deriving DecidableEq

/-- Destructive cloud calls issued by the teardown code. -/
inductive Ec2Event
  | destroyNodeCall (id : String)
  | destroyVolumeCall (vid : String)
deriving DecidableEq

/-- The volume-cleanup tail of destroy_node_and_cleanup: assert at most one
volume, wait (bounded) for the volumes to detach, then destroy every listed
volume whose recorded instance id matches the node and whose size is one of
the two expected provisioning sizes. -/
def destroyVolumesPhase (w : Ec2World) (node : Ec2Node) (ev0 : List Ec2Event) :
    List Ec2Event × PyResult Unit :=
  if w.volumes.length > 1 then
    (ev0, .exn (.assertionError "len(volumes) <= 1"))
  else if w.volumes ≠ [] ∧ w.volumesDetach = false then
    (ev0, .exn (.timeoutError "Could not wait for all volumes being detached"))
  else
    let vols := w.volumes.filter
      (fun v => v.instance_id == some node.id && (v.size == 8 || v.size == 30))
    (ev0 ++ vols.map (fun v => .destroyVolumeCall v.id), .ok ())

/-- destroy_node_and_cleanup: refuse (assert) unless the automation marker
occurs in the node name; then destroy the node, tolerating only a node
already gone, and clean up its volumes. -/
def destroy_node_and_cleanup (w : Ec2World) (node : Ec2Node) :
    List Ec2Event × PyResult Unit :=
  if strContains INSTANCE_NAME_STRING node.name = false then
    ([], .exn (.assertionError
      ("Refusing to delete node without " ++ INSTANCE_NAME_STRING ++ " in the name")))
  else
    let ev0 := [Ec2Event.destroyNodeCall node.id]
    match w.nodeDestroyError with
    | some msg =>
      if strContains "does not exist" msg then destroyVolumesPhase w node ev0
      else (ev0, .exn (.exception msg))
    | none => destroyVolumesPhase w node ev0

/-- Modelled from the spec: the ubuntu base image reference (the base_images
module is not part of the source tree). -/
def UBUNTU_BASE_IMAGE : String := "ubuntu:22.04"

/-- Modelled from the spec: the alpine base image reference (the base_images
module is not part of the source tree). -/
def ALPINE_BASE_IMAGE : String := "alpine:3.17"

/-- BASE_DISTRO_IMAGE_NAMES: base distro name to base image reference. -/
def BASE_DISTRO_IMAGE_NAMES : List (String × String) :=
  [("ubuntu", UBUNTU_BASE_IMAGE), ("alpine", ALPINE_BASE_IMAGE)]

/-- The directory containing the dependency build definition. -/
def depsParentDir : PyPath :=
  ⟨["agent_build_refactored", "container_images"], "dependencies"⟩

/-- The process-wide registry _existing_built_dependencies: base distro to
the set of architectures already built (a defaultdict of sets; sets are
modelled as duplicate-free lists). -/
def DepsState : Type := String → List CpuArch

/-- Reading the registry for one distro. -/
def depsLookup (st : DepsState) (d : String) : List CpuArch := st d

/-- Recording an architecture as built for a distro. -/
def depsAdd (st : DepsState) (d : String) (a : CpuArch) : DepsState :=
  fun k => if k = d then (if a ∈ st d then st d else st d ++ [a]) else st k

/-- The cache name used for the dependency build of one (distro,
architecture) pair. -/
def dependenciesCacheName (d : String) (a : CpuArch) : String :=
  "agent_container_image_dependencies_" ++ d ++ "_" ++ a.value

/-- The result directory of the dependency build, under the fixed output
root. -/
def dependenciesResultDir (d : String) (a : CpuArch) : PyPath :=
  AGENT_BUILD_OUTPUT_PATH.child (dependenciesCacheName d a)

/-- Observable filesystem and subprocess effects of
build_agent_image_dependencies. -/
inductive DepEvent
  | rmtree (dir : PyPath)
  | buildxInvocation (p : BuildxParams)
  | mkdirOutput (dir : PyPath)
  | copytree (src dst : PyPath) (dirs_exist_ok symlinks : Bool)
deriving DecidableEq

/-- Whether an event is the external buildx_build invocation. -/
def DepEvent.isBuild : DepEvent → Bool
  | .buildxInvocation _ => true
  | _ => false

/-- The effects of the nested _copy_output helper: nothing without an output
directory, otherwise a recursive mkdir of the output directory followed by a
merging, symlink-preserving copy of the result tree into it. -/
def depsCopyEvents (result_dir : PyPath) : Option PyPath → List DepEvent
  | none => []
  | some od => [.mkdirOutput od, .copytree result_dir od true true]

/-- The build output passed to the nested buildx_build: a local directory
output at the result directory when an output directory was requested,
otherwise no output. -/
def depsOutputOpt (result_dir : PyPath) : Option PyPath → Option BuildOutput
  | none => none
  | some _ => some (.localDirectory result_dir)

/-- The events of the cold path: optional removal of the stale result
directory followed by the buildx invocation. -/
def depsBuildEvents (resultDirExists : Bool) (result_dir : PyPath)
    (bp : BuildxParams) : List DepEvent :=
  (if resultDirExists then [DepEvent.rmtree result_dir] else []) ++
    [DepEvent.buildxInvocation bp]

/-- The parameters of the nested buildx_build call of
build_agent_image_dependencies. -/
def depsBuildxParams (base_distro : String) (architecture : CpuArch)
    (base_image_name : String) (output_dir : Option PyPath) : BuildxParams :=
  ⟨depsParentDir.child "Dockerfile", depsParentDir,
   ArchArg.single architecture,
   [("BASE_DISTRO", base_distro),
    ("AGENT_REQUIREMENTS", AGENT_REQUIREMENTS),
    ("TEST_REQUIREMENTS", REQUIREMENTS_DEV_COVERAGE)],
   [("base_image", "docker-image://" ++ base_image_name)],
   none, depsOutputOpt (dependenciesResultDir base_distro architecture) output_dir,
   some (dependenciesCacheName base_distro architecture), false, false⟩

/-- Outcome of one build_agent_image_dependencies call: the updated
process-wide registry, the effects performed, and the returned result
directory (or a raised exception). -/
structure DepsRunResult where
  state : DepsState
  events : List DepEvent
  result : PyResult PyPath

/-- Shallow embedding of build_agent_image_dependencies: if the architecture
is already recorded for the distro, only the optional copy runs and the
existing path is returned; otherwise any stale result directory is removed,
one buildx_build is invoked for the dependency Dockerfile scoped to the
architecture and keyed by the per-pair cache name, the architecture is
recorded, the optional copy runs and the path is returned.  resultDirExists
says whether the stale result directory exists; buildRaises says whether the
nested buildx_build raises. -/
def build_agent_image_dependencies (st : DepsState) (resultDirExists : Bool)
    (buildRaises : Bool) (base_distro : String) (architecture : CpuArch)
    (output_dir : Option PyPath) : DepsRunResult :=
  if architecture ∈ depsLookup st base_distro then
    ⟨st, depsCopyEvents (dependenciesResultDir base_distro architecture) output_dir,
     .ok (dependenciesResultDir base_distro architecture)⟩
  else
    match BASE_DISTRO_IMAGE_NAMES.find? (fun kv => kv.1 == base_distro) with
    | none =>
      ⟨st,
       (if resultDirExists then
         [DepEvent.rmtree (dependenciesResultDir base_distro architecture)]
        else []),
       .exn (.keyError base_distro)⟩
    | some kv =>
      if buildRaises then
        ⟨st,
         depsBuildEvents resultDirExists
           (dependenciesResultDir base_distro architecture)
           (depsBuildxParams base_distro architecture kv.2 output_dir),
         .exn (.exception "Build command has failed.")⟩
      else
        ⟨depsAdd st base_distro architecture,
         depsBuildEvents resultDirExists
             (dependenciesResultDir base_distro architecture)
             (depsBuildxParams base_distro architecture kv.2 output_dir) ++
           depsCopyEvents (dependenciesResultDir base_distro architecture)
             output_dir,
         .ok (dependenciesResultDir base_distro architecture)⟩

/-- The directory containing the image build definitions. -/
def imagesParentDir : PyPath :=
  ⟨["agent_build_refactored"], "container_images"⟩

/-- SUPPORTED_ARCHITECTURES of the containerised agent builders. -/
def SUPPORTED_ARCHITECTURES : List CpuArch :=
  [.x86_64, .AARCH64, .ARMV7]

/-- Whether a command-line argument is a cache directive (cache-from or
cache-to). -/
def isCacheDirective (s : String) : Bool :=
  listStartsWithB "--cache-from".toList s.toList ||
    listStartsWithB "--cache-to".toList s.toList

/-- The parameters of the buildx_build call made by
_build_final_image_base_oci_layout via _build_dependencies: the
final_image_base stage of the dependency Dockerfile for all supported
architectures, an extracting OCI tarball output under the work directory,
and no cache name. -/
def finalImageBaseBuildxParams (base_distro : String) (work_dir : PyPath) :
    BuildxParams :=
  ⟨imagesParentDir.child "dependencies.Dockerfile", imagesParentDir,
   ArchArg.list SUPPORTED_ARCHITECTURES,
   [("BASE_DISTRO", base_distro),
    ("AGENT_REQUIREMENTS", AGENT_REQUIREMENTS),
    ("TEST_REQUIREMENTS", REQUIREMENTS_DEV_COVERAGE)],
   [], some "final_image_base",
   some (.ociTarball (work_dir.child "final_image_base") true),
   none, false, false⟩

/-- Shallow embedding of _build_final_image_base_oci_layout: when the
class-level flag is already set, return the result path with no build;
otherwise issue the single dependency build, set the flag and return the
path. -/
def _build_final_image_base_oci_layout (flag : Bool) (base_distro : String)
    (work_dir : PyPath) : Bool × List BuildxParams × PyPath :=
  if flag then (flag, [], work_dir.child "final_image_base")
  else
    (true, [finalImageBaseBuildxParams base_distro work_dir],
     work_dir.child "final_image_base")

/-- n successive _build_final_image_base_oci_layout calls in one process:
the final flag value and every buildx invocation issued, in order. -/
def iterateFinalBaseBuilds (base_distro : String) (work_dir : PyPath) :
    Nat → Bool → Bool × List BuildxParams
  | 0, flag => (flag, [])
  | n + 1, flag =>
    let r := _build_final_image_base_oci_layout flag base_distro work_dir
    let rest := iterateFinalBaseBuilds base_distro work_dir n r.1
    (rest.1, r.2.1 ++ rest.2)

lemma extractStep_events_shape (ev : List BuildEvent) (fs : Fs) (out : Option BuildOutput) :
    ∃ t, (extractStep ev fs out).events = ev ++ t ∧
      ∀ e ∈ t, ∃ tp d, e = BuildEvent.extractTarball tp d := by
  unfold extractStep
  match out with
  | none => exact ⟨[], by simp⟩
  | some (.localDirectory d) => exact ⟨[], by simp⟩
  | some (.dockerImage n) => exact ⟨[], by simp⟩
  | some (.ociTarball d false) => exact ⟨[], by simp⟩
  | some (.ociTarball d true) =>
    cases hget : fsGet fs (ociTarballPath d true).components with
    | none => exact ⟨[], by simp [hget]⟩
    | some node =>
      cases node with
      | file c => exact ⟨[], by simp [hget]⟩
      | tarArchive ar =>
        refine ⟨[.extractTarball (ociTarballPath d true) d], by simp [hget]⟩

lemma extractStep_result_engineWrite (ev : List BuildEvent) (fs : Fs)
    (out : Option BuildOutput) (ar : List (List String × String)) :
    (extractStep ev (engineWriteOutput fs out ar) out).result = PyResult.ok none := by
  unfold extractStep engineWriteOutput
  match out with
  | none => rfl
  | some (.localDirectory d) => rfl
  | some (.dockerImage n) => rfl
  | some (.ociTarball d false) => rfl
  | some (.ociTarball d true) =>
    simp [fsGet, fsWrite, List.find?]

lemma singleArchEq (p : BuildxParams) (hsingle : p.architecture.used.length = 1) :
    (match p.architecture with
     | ArchArg.single _ => true
     | ArchArg.list l => l.length == 1) = true := by
  cases h : p.architecture with
  | single a => rfl
  | list l =>
    rw [h] at hsingle
    simp [ArchArg.used] at hsingle
    simp [hsingle]

lemma buildxFallbackTimeout_pos (env : BuildEnv) (p : BuildxParams)
    (hcache : pyTruthy p.cache_name = true)
    (hfb : p.fallback_to_remote_builder = true)
    (hsingle : p.architecture.used.length = 1)
    (hallow : env.allow_fallback_to_remote_builder = true) :
    buildxFallbackTimeout env p = some (if env.use_gha_cache then 60 * 2 else 40) := by
  have hsa := singleArchEq p hsingle
  simp [buildxFallbackTimeout, hsa, hcache, hfb, hallow]

lemma buildxFallbackTimeout_neg (env : BuildEnv) (p : BuildxParams)
    (h : ((pyTruthy p.cache_name && p.fallback_to_remote_builder) &&
      (env.allow_fallback_to_remote_builder &&
        (match p.architecture with
         | ArchArg.single _ => true
         | ArchArg.list l => l.length == 1))) = false) :
    buildxFallbackTimeout env p = none := by
  simp [buildxFallbackTimeout, h]

/-- C1 (amended): for every buildx_build call with a truthy cache name,
fallback requested, exactly one target architecture, global fallback enabled
and output capture disabled, if the child build does not complete within the
bounded wait then the process tree is terminated, exactly one remote-builder
build is launched with the identical argument list plus a builder-selector
flag and no timeout, and its exit code decides success or failure. -/
theorem C1_bounded_wait_escalates_to_remote_builder
    (env : BuildEnv) (w : WorldBehavior) (p : BuildxParams) (fs : Fs)
    (hcache : pyTruthy p.cache_name = true)
    (hfb : p.fallback_to_remote_builder = true)
    (hsingle : p.architecture.used.length = 1)
    (hallow : env.allow_fallback_to_remote_builder = true)
    (hcap : p.capture_output = false)
    (hslow : w.localCompletesInTime = false) :
    BuildEvent.killProcessTree ∈ (buildx_build env w p fs).events ∧
    (buildx_build env w p fs).events.filter BuildEvent.isRemote =
      [BuildEvent.launchRemote
        (buildxCmdArgs env p ++ ["--builder=" ++ w.remoteBuilderName]) none] ∧
    (buildx_build env w p fs).result =
      (if w.remoteExitCode = 0 then PyResult.ok none
       else PyResult.exn PyError.calledProcessError) := by
  have hft := buildxFallbackTimeout_pos env p hcache hfb hsingle hallow
  by_cases hre : w.remoteExitCode = 0
  · have hshape := extractStep_events_shape
      ([BuildEvent.launchLocal (buildxCmdArgs env p)
          (some (if env.use_gha_cache then 60 * 2 else 40))] ++
        [BuildEvent.killProcessTree] ++
        [BuildEvent.launchRemote
          (buildxCmdArgs env p ++ ["--builder=" ++ w.remoteBuilderName]) none])
      (engineWriteOutput fs p.output w.producedArchive) p.output
    obtain ⟨t, ht, hall⟩ := hshape
    have htf : t.filter BuildEvent.isRemote = [] := by
      rw [List.filter_eq_nil_iff]
      intro e he
      obtain ⟨tp, d, rfl⟩ := hall e he
      simp [BuildEvent.isRemote]
    have hres := extractStep_result_engineWrite
      ([BuildEvent.launchLocal (buildxCmdArgs env p)
          (some (if env.use_gha_cache then 60 * 2 else 40))] ++
        [BuildEvent.killProcessTree] ++
        [BuildEvent.launchRemote
          (buildxCmdArgs env p ++ ["--builder=" ++ w.remoteBuilderName]) none])
      fs p.output w.producedArchive
    simp only [buildx_build, hft, hcap, hslow, hre,
      Bool.and_true, Bool.true_and, Bool.and_self, Option.isSome_some,
      Bool.not_false, if_true, if_false, Bool.false_eq_true,
      ne_eq, not_true_eq_false]
    simp only [ht, hres]
    refine ⟨by simp, ?_, by simp⟩
    rw [List.filter_append, htf]
    simp [BuildEvent.isRemote]
  · simp only [buildx_build, hft, hcap, hslow, hre,
      Bool.and_true, Bool.true_and, Bool.and_self, Option.isSome_some,
      Bool.not_false, if_true, if_false, ne_eq, not_false_eq_true]
    refine ⟨by simp, by simp [BuildEvent.isRemote], by simp [hre]⟩

/-- C1 counterexample: with output capture enabled, a bounded-wait expiry
under all the other preconditions of the claim terminates the process tree
but then raises UnboundLocalError instead of launching any remote-builder
build, refuting the claim as stated. -/
theorem C1_counterexample_capture_output :
    (buildx_build c1ceEnv c1ceWorld c1ceParams []).events.filter BuildEvent.isRemote = [] ∧
    (buildx_build c1ceEnv c1ceWorld c1ceParams []).result =
      PyResult.exn (PyError.unboundLocalError "stdout") := by
  constructor <;> rfl

/-- Witness for C1: a concrete single-architecture, cache-named,
fallback-enabled call without output capture whose bounded wait expires
escalates to exactly one remote build. -/
theorem C1_bounded_wait_escalates_to_remote_builder_witness :
    BuildEvent.killProcessTree ∈
      (buildx_build c1ceEnv c1ceWorld
        ⟨⟨["images"], "Dockerfile"⟩, ⟨[], "images"⟩, ArchArg.single CpuArch.x86_64,
         [], [], none, none, some "some-cache", true, false⟩ []).events ∧
    (buildx_build c1ceEnv c1ceWorld
        ⟨⟨["images"], "Dockerfile"⟩, ⟨[], "images"⟩, ArchArg.single CpuArch.x86_64,
         [], [], none, none, some "some-cache", true, false⟩ []).events.filter
        BuildEvent.isRemote =
      [BuildEvent.launchRemote
        (buildxCmdArgs c1ceEnv
          ⟨⟨["images"], "Dockerfile"⟩, ⟨[], "images"⟩, ArchArg.single CpuArch.x86_64,
           [], [], none, none, some "some-cache", true, false⟩ ++
          ["--builder=" ++ c1ceWorld.remoteBuilderName]) none] ∧
    (buildx_build c1ceEnv c1ceWorld
        ⟨⟨["images"], "Dockerfile"⟩, ⟨[], "images"⟩, ArchArg.single CpuArch.x86_64,
         [], [], none, none, some "some-cache", true, false⟩ []).result =
      (if c1ceWorld.remoteExitCode = 0 then PyResult.ok none
       else PyResult.exn PyError.calledProcessError) := by
  exact C1_bounded_wait_escalates_to_remote_builder c1ceEnv c1ceWorld
    ⟨⟨["images"], "Dockerfile"⟩, ⟨[], "images"⟩, ArchArg.single CpuArch.x86_64,
     [], [], none, none, some "some-cache", true, false⟩ []
    (by decide) rfl rfl rfl rfl rfl

lemma buildx_build_no_fallback_shape
    (env : BuildEnv) (w : WorldBehavior) (p : BuildxParams) (fs : Fs)
    (h : ((pyTruthy p.cache_name && p.fallback_to_remote_builder) &&
      (env.allow_fallback_to_remote_builder &&
        (match p.architecture with
         | ArchArg.single _ => true
         | ArchArg.list l => l.length == 1))) = false) :
    ∃ t, (buildx_build env w p fs).events =
        [BuildEvent.launchLocal (buildxCmdArgs env p) none] ++ t ∧
      ∀ e ∈ t, ∃ tp d, e = BuildEvent.extractTarball tp d := by
  have hft := buildxFallbackTimeout_neg env p h
  by_cases hexit : w.localExitCode = 0
  · obtain ⟨t, ht, hall⟩ := extractStep_events_shape
      [BuildEvent.launchLocal (buildxCmdArgs env p) none]
      (engineWriteOutput fs p.output w.producedArchive) p.output
    refine ⟨t, ?_, hall⟩
    simp only [buildx_build, hft]
    simp [hexit]
    split <;> simpa using ht
  · refine ⟨[], ?_, by simp⟩
    simp [buildx_build, hft, hexit]

/-- C2: a buildx_build call whose architecture argument is a list of more
than one architecture applies no bounded wait (the single child build is
awaited without a timeout), never terminates the process tree, and never
launches a remote-builder build, whatever the cache name, the fallback flag
and the global fallback setting. -/
theorem C2_multiarch_never_falls_back
    (env : BuildEnv) (w : WorldBehavior) (p : BuildxParams) (fs : Fs)
    (l : List CpuArch)
    (harch : p.architecture = ArchArg.list l) (hlen : 1 < l.length) :
    (∀ e ∈ (buildx_build env w p fs).events, e.isRemote = false) ∧
    BuildEvent.killProcessTree ∉ (buildx_build env w p fs).events ∧
    BuildEvent.launchLocal (buildxCmdArgs env p) none ∈
      (buildx_build env w p fs).events := by
  have hne : (l.length == 1) = false := by
    simp only [beq_eq_false_iff_ne, ne_eq]
    omega
  obtain ⟨t, ht, hall⟩ := buildx_build_no_fallback_shape env w p fs
    (by rw [harch]; simp [hne])
  rw [ht]
  refine ⟨?_, ?_, by simp⟩
  · intro e he
    rcases List.mem_append.mp he with h1 | h2
    · simp only [List.mem_singleton] at h1
      subst h1
      rfl
    · obtain ⟨tp, d, rfl⟩ := hall e h2
      rfl
  · intro hmem
    rcases List.mem_append.mp hmem with h1 | h2
    · simp at h1
    · obtain ⟨tp, d, heq⟩ := hall _ h2
      simp at heq

/-- Witness for C2: a concrete two-architecture call with cache name,
fallback flag and global fallback all enabled never kills the process tree
nor launches a remote build. -/
theorem C2_multiarch_never_falls_back_witness :
    (∀ e ∈ (buildx_build c1ceEnv c1ceWorld
        ⟨⟨["images"], "Dockerfile"⟩, ⟨[], "images"⟩,
         ArchArg.list [CpuArch.x86_64, CpuArch.AARCH64],
         [], [], none, none, some "some-cache", true, false⟩ []).events,
      e.isRemote = false) ∧
    BuildEvent.killProcessTree ∉
      (buildx_build c1ceEnv c1ceWorld
        ⟨⟨["images"], "Dockerfile"⟩, ⟨[], "images"⟩,
         ArchArg.list [CpuArch.x86_64, CpuArch.AARCH64],
         [], [], none, none, some "some-cache", true, false⟩ []).events ∧
    BuildEvent.launchLocal
        (buildxCmdArgs c1ceEnv
          ⟨⟨["images"], "Dockerfile"⟩, ⟨[], "images"⟩,
           ArchArg.list [CpuArch.x86_64, CpuArch.AARCH64],
           [], [], none, none, some "some-cache", true, false⟩) none ∈
      (buildx_build c1ceEnv c1ceWorld
        ⟨⟨["images"], "Dockerfile"⟩, ⟨[], "images"⟩,
         ArchArg.list [CpuArch.x86_64, CpuArch.AARCH64],
         [], [], none, none, some "some-cache", true, false⟩ []).events := by
  exact C2_multiarch_never_falls_back c1ceEnv c1ceWorld _ []
    [CpuArch.x86_64, CpuArch.AARCH64] rfl (by decide)

/-- C3: evaluating the code at the failing input.  With capture_output
enabled and the bounded wait expired, the call raises UnboundLocalError on
the never-assigned local variable stdout right after terminating the process
tree: it neither escalates to the remote builder nor returns the captured
output, contradicting the claim. -/
theorem C3_capture_output_timeout_crashes :
    (buildx_build c3Env c3World c3Params []).result =
      PyResult.exn (PyError.unboundLocalError "stdout") ∧
    (buildx_build c3Env c3World c3Params []).events =
      [BuildEvent.launchLocal (buildxCmdArgs c3Env c3Params) (some 120),
       BuildEvent.killProcessTree] := by
  constructor <;> rfl

lemma fsGet_fsWrite_self (fs : Fs) (p : List String) (n : FsNode) :
    fsGet (fsWrite fs p n) p = some n := by
  simp [fsGet, fsWrite, List.find?]

lemma fsGet_fsWrite_ne (fs : Fs) (p : List String) (n : FsNode) (k : List String)
    (h : p ≠ k) : fsGet (fsWrite fs p n) k = fsGet fs k := by
  simp [fsGet, fsWrite, List.find?, beq_eq_false_iff_ne.mpr h]

lemma tarExtractAll_cons (fs : Fs) (e : List String × String)
    (rest : List (List String × String)) (dest : PyPath) :
    tarExtractAll fs (e :: rest) dest =
      tarExtractAll (fsWrite fs (dest.components ++ e.1) (.file e.2)) rest dest := by
  rfl

lemma tarExtractAll_lookup_of_ne (fs : Fs) (ar : List (List String × String))
    (dest : PyPath) (k : List String)
    (h : ∀ e ∈ ar, dest.components ++ e.1 ≠ k) :
    fsGet (tarExtractAll fs ar dest) k = fsGet fs k := by
  induction ar generalizing fs with
  | nil => rfl
  | cons e rest ih =>
    rw [tarExtractAll_cons, ih _ (fun x hx => h x (List.mem_cons_of_mem e hx)),
      fsGet_fsWrite_ne _ _ _ _ (h e (List.mem_cons_self e rest))]

lemma tarExtractAll_lookup (fs : Fs) (ar : List (List String × String))
    (dest : PyPath) (rp : List String) (c : String)
    (hmem : (rp, c) ∈ ar) (hnd : (ar.map Prod.fst).Nodup) :
    fsGet (tarExtractAll fs ar dest) (dest.components ++ rp) =
      some (FsNode.file c) := by
  induction ar generalizing fs with
  | nil => cases hmem
  | cons e rest ih =>
    rw [List.map_cons, List.nodup_cons] at hnd
    rcases List.mem_cons.mp hmem with he | hrest
    · subst he
      rw [tarExtractAll_cons]
      rw [tarExtractAll_lookup_of_ne]
      · exact fsGet_fsWrite_self _ _ _
      · intro x hx hcontra
        have hx1 : x.1 = rp := List.append_cancel_left hcontra
        apply hnd.1
        have hm := List.mem_map_of_mem Prod.fst hx
        rw [hx1] at hm
        simpa using hm
    · rw [tarExtractAll_cons]
      exact ih _ hrest hnd.2

lemma buildx_build_success (env : BuildEnv) (w : WorldBehavior) (p : BuildxParams)
    (fs : Fs) (hfast : w.localCompletesInTime = true) (hexit : w.localExitCode = 0) :
    buildx_build env w p fs =
      ⟨(extractStep [BuildEvent.launchLocal (buildxCmdArgs env p) (buildxFallbackTimeout env p)]
          (engineWriteOutput fs p.output w.producedArchive) p.output).events,
       PyResult.ok (if p.capture_output then some w.localOutput else none),
       (extractStep [BuildEvent.launchLocal (buildxCmdArgs env p) (buildxFallbackTimeout env p)]
          (engineWriteOutput fs p.output w.producedArchive) p.output).fs⟩ := by
  have hres := extractStep_result_engineWrite
    [BuildEvent.launchLocal (buildxCmdArgs env p) (buildxFallbackTimeout env p)]
    fs p.output w.producedArchive
  simp only [buildx_build, hfast, Bool.not_true, Bool.and_false, Bool.false_eq_true,
    if_false, hexit, ne_eq, not_true_eq_false]
  simp [hres, hexit]

lemma engineWrite_oci (fs : Fs) (ar : List (List String × String)) (dest : PyPath)
    (ex : Bool) :
    engineWriteOutput fs (some (BuildOutput.ociTarball dest ex)) ar =
      fsWrite fs (ociTarballPath dest ex).components (.tarArchive ar) :=
  rfl

lemma extractStep_oci_true (ev : List BuildEvent) (fs : Fs)
    (ar : List (List String × String)) (dest : PyPath) :
    extractStep ev (fsWrite fs (ociTarballPath dest true).components (.tarArchive ar))
        (some (BuildOutput.ociTarball dest true)) =
      ⟨ev ++ [.extractTarball (ociTarballPath dest true) dest], .ok none,
       tarExtractAll (fsWrite fs (ociTarballPath dest true).components (.tarArchive ar))
         ar dest⟩ := by
  simp [extractStep, fsGet_fsWrite_self]

lemma extractStep_oci_false (ev : List BuildEvent) (fs : Fs) (dest : PyPath) :
    extractStep ev fs (some (BuildOutput.ociTarball dest false)) = ⟨ev, .ok none, fs⟩ :=
  rfl

lemma tarball_key_ne (dest : PyPath) (e : List String × String) :
    dest.components ++ e.1 ≠ dest.parent ++ [dest.name ++ ".tar"] := by
  intro heq
  rw [PyPath.components, List.append_assoc] at heq
  have h1 := List.append_cancel_left heq
  rw [List.singleton_append] at h1
  injection h1 with h2 h3
  have h4 := congrArg String.length h2
  have h5 : (".tar" : String).length = 4 := rfl
  rw [String.length_append, h5] at h4
  omega

/-- C7: for a successful buildx_build with an OCI tarball output, when the
extract flag is set the produced tarball sits at dest.parent/(dest.name +
.tar), an extraction step runs, and every entry of the produced archive ends
up as a file under the destination directory; when the flag is unset the
destination path itself holds the tarball and no extraction is performed. -/
theorem C7_oci_tarball_output_extraction
    (env : BuildEnv) (w : WorldBehavior) (p : BuildxParams) (fs : Fs)
    (dest : PyPath) (ex : Bool)
    (hout : p.output = some (BuildOutput.ociTarball dest ex))
    (hfast : w.localCompletesInTime = true)
    (hexit : w.localExitCode = 0)
    (hnd : (w.producedArchive.map Prod.fst).Nodup) :
    (buildx_build env w p fs).result =
      PyResult.ok (if p.capture_output then some w.localOutput else none) ∧
    (ex = true →
      (∀ pr ∈ w.producedArchive,
        fsGet (buildx_build env w p fs).fs (dest.components ++ pr.1) =
          some (FsNode.file pr.2)) ∧
      fsGet (buildx_build env w p fs).fs
          (PyPath.mk dest.parent (dest.name ++ ".tar")).components =
        some (FsNode.tarArchive w.producedArchive) ∧
      BuildEvent.extractTarball ⟨dest.parent, dest.name ++ ".tar"⟩ dest ∈
        (buildx_build env w p fs).events) ∧
    (ex = false →
      fsGet (buildx_build env w p fs).fs dest.components =
        some (FsNode.tarArchive w.producedArchive) ∧
      ∀ tp d, BuildEvent.extractTarball tp d ∉ (buildx_build env w p fs).events) := by
  have hrun := buildx_build_success env w p fs hfast hexit
  rw [hout] at hrun
  cases ex with
  | false =>
    rw [engineWrite_oci, extractStep_oci_false] at hrun
    simp only [ociTarballPath, Bool.false_eq_true, if_false] at hrun
    rw [hrun]
    refine ⟨rfl, ?_, ?_⟩
    · intro hc
      exact absurd hc (by simp)
    · intro _
      exact ⟨fsGet_fsWrite_self _ _ _, by simp⟩
  | true =>
    rw [engineWrite_oci, extractStep_oci_true] at hrun
    dsimp only at hrun
    rw [hrun]
    dsimp only
    refine ⟨rfl, ?_, ?_⟩
    · intro _
      refine ⟨?_, ?_, ?_⟩
      · intro pr hpr
        exact tarExtractAll_lookup _ _ _ pr.1 pr.2 (by simpa using hpr) hnd
      · have hne : ∀ e ∈ w.producedArchive,
            dest.components ++ e.1 ≠ (ociTarballPath dest true).components := by
          intro e he
          simpa [ociTarballPath, PyPath.components] using tarball_key_ne dest e
        show fsGet (tarExtractAll
            (fsWrite fs (ociTarballPath dest true).components
              (FsNode.tarArchive w.producedArchive)) w.producedArchive dest)
            (ociTarballPath dest true).components =
          some (FsNode.tarArchive w.producedArchive)
        rw [tarExtractAll_lookup_of_ne _ _ _ _ hne]
        exact fsGet_fsWrite_self _ _ _
      · simp [ociTarballPath]
    · intro hc
      exact absurd hc (by simp)

/-- Witness for C7: on a concrete successful build with an extracting OCI
tarball output, a concrete archive entry is found untarred under the
destination directory. -/
theorem C7_oci_tarball_output_extraction_witness :
    fsGet (buildx_build c7Env c7World c7Params []).fs
        ((⟨["out"], "img"⟩ : PyPath).components ++ ["blobs", "sha256", "a"]) =
      some (FsNode.file "blob-a") := by
  have h := C7_oci_tarball_output_extraction c7Env c7World c7Params []
    ⟨["out"], "img"⟩ true rfl rfl rfl (by decide)
  exact (h.2.1 rfl).1 (["blobs", "sha256", "a"], "blob-a") (by decide)

/-- C10 counterexample: with the cache version set to v1 and the cache name
c, the GHA backend scopes the cache as c_v1 but the local filesystem backend
keys the cache directory by the bare name c; the generated local directives
never mention the suffixed scope, refuting the claim for the local backend. -/
theorem C10_counterexample_local_cache_unversioned :
    _get_gha_cache_scope ⟨false, "v1", false⟩ "c" = "c_v1" ∧
    (_get_local_cache_dir "c").name = "c" ∧
    cacheCmdArgs ⟨false, "v1", false⟩ (some "c") =
      ["--cache-from=type=local,src=agent_build_output/docker_cache/c",
       "--cache-to=type=local,dest=agent_build_output/docker_cache/c"] ∧
    (cacheCmdArgs ⟨false, "v1", false⟩ (some "c")).all
      (fun s => !(strContains "c_v1" s)) = true := by
  refine ⟨rfl, rfl, rfl, by decide⟩

/-- C10 (amended): when the cache version is set and a cache name is given,
the GHA cache backend uses the cache name suffixed with an underscore and the
version as the scope of both generated cache directives, while the local
filesystem backend keys the cache directory by the bare cache name with no
version suffix. -/
theorem C10_cache_version_scoping (env : BuildEnv) (n : String)
    (hn : n ≠ "") (hv : env.cache_version ≠ "") :
    _get_gha_cache_scope env n = n ++ "_" ++ env.cache_version ∧
    (env.use_gha_cache = true →
      cacheCmdArgs env (some n) =
        ["--cache-from=type=gha,scope=" ++ (n ++ "_" ++ env.cache_version),
         "--cache-to=type=gha,scope=" ++ (n ++ "_" ++ env.cache_version)]) ∧
    (env.use_gha_cache = false →
      cacheCmdArgs env (some n) =
        ["--cache-from=type=local,src=" ++ (_get_local_cache_dir n).toStr,
         "--cache-to=type=local,dest=" ++ (_get_local_cache_dir n).toStr] ∧
      (_get_local_cache_dir n).name = n) := by
  refine ⟨by simp [_get_gha_cache_scope, hv], ?_, ?_⟩
  · intro hg
    simp [cacheCmdArgs, hn, hg, _get_gha_cache_scope, hv]
  · intro hg
    refine ⟨by simp [cacheCmdArgs, hn, hg], rfl⟩

/-- Witness for C10: concrete evaluation with version v1 and name c on both
backends. -/
theorem C10_cache_version_scoping_witness :
    _get_gha_cache_scope ⟨true, "v1", false⟩ "c" = "c" ++ "_" ++ "v1" ∧
    cacheCmdArgs ⟨true, "v1", false⟩ (some "c") =
      ["--cache-from=type=gha,scope=" ++ ("c" ++ "_" ++ "v1"),
       "--cache-to=type=gha,scope=" ++ ("c" ++ "_" ++ "v1")] := by
  have h := C10_cache_version_scoping ⟨true, "v1", false⟩ "c"
    (by decide) (by decide)
  exact ⟨h.1, h.2.1 rfl⟩

lemma foldl_appendish {α β : Type} (step : List β → α → List β) (g : α → List β)
    (h : ∀ acc x, step acc x = acc ++ g x) :
    ∀ (l : List α) (acc : List β), l.foldl step acc = acc ++ l.flatMap g := by
  intro l
  induction l with
  | nil => intro acc; simp
  | cons x xs ih =>
    intro acc
    rw [List.foldl_cons, h, ih, List.flatMap_cons, List.append_assoc]

lemma length_flatMap_const {α β : Type} (l : List α) (f : α → List β) (k : ℕ)
    (h : ∀ x ∈ l, (f x).length = k) : (l.flatMap f).length = l.length * k := by
  induction l with
  | nil => simp
  | cons x xs ih =>
    rw [List.flatMap_cons, List.length_append, h x (by simp),
      ih (fun y hy => h y (by simp [hy])), List.length_cons, Nat.succ_mul,
      Nat.add_comm]

/-- C8: generate_final_registry_tags returns exactly the cartesian product
of image names, tags and tag suffixes, one string registry/user/name:tag
plus suffix per combination, ordered with the image name as the outer loop,
the tag in the middle and the suffix innermost; its length is the product of
the three list lengths; in particular the two-name docker-syslog alpine
builder with tags latest and test and the single alpine suffix yields
exactly four tags in that order. -/
theorem C8_generate_final_registry_tags (b : BuilderClass) (registry user : String)
    (tags : List String) :
    generate_final_registry_tags b registry user tags =
      (_IMAGE_REGISTRY_NAMES b.IMAGE_TYPE).flatMap (fun image_name =>
        tags.flatMap (fun tag =>
          b.TAG_SUFFIXES.map (fun tag_suffix =>
            registry ++ "/" ++ user ++ "/" ++ image_name ++ ":" ++ tag ++ tag_suffix))) ∧
    (generate_final_registry_tags b registry user tags).length =
      (_IMAGE_REGISTRY_NAMES b.IMAGE_TYPE).length * tags.length *
        b.TAG_SUFFIXES.length ∧
    generate_final_registry_tags (builderClassFor "alpine" ImageType.DOCKER_SYSLOG)
        "reg" "u" ["latest", "test"] =
      ["reg/u/scalyr-agent-docker-syslog:latest-alpine",
       "reg/u/scalyr-agent-docker-syslog:test-alpine",
       "reg/u/scalyr-agent-docker:latest-alpine",
       "reg/u/scalyr-agent-docker:test-alpine"] := by
  have hinner : ∀ (image_name tag : String) (acc : List String),
      b.TAG_SUFFIXES.foldl (fun acc3 tag_suffix =>
        acc3 ++ [registry ++ "/" ++ user ++ "/" ++ image_name ++ ":" ++ tag ++ tag_suffix])
        acc =
      acc ++ b.TAG_SUFFIXES.map (fun tag_suffix =>
        registry ++ "/" ++ user ++ "/" ++ image_name ++ ":" ++ tag ++ tag_suffix) := by
    intro image_name tag acc
    rw [foldl_appendish _
      (fun tag_suffix =>
        [registry ++ "/" ++ user ++ "/" ++ image_name ++ ":" ++ tag ++ tag_suffix])
      (fun _ _ => rfl), ← List.map_eq_flatMap]
  have hmid : ∀ (image_name : String) (acc : List String),
      tags.foldl (fun acc2 tag =>
        b.TAG_SUFFIXES.foldl (fun acc3 tag_suffix =>
          acc3 ++ [registry ++ "/" ++ user ++ "/" ++ image_name ++ ":" ++ tag ++ tag_suffix])
          acc2) acc =
      acc ++ tags.flatMap (fun tag =>
        b.TAG_SUFFIXES.map (fun tag_suffix =>
          registry ++ "/" ++ user ++ "/" ++ image_name ++ ":" ++ tag ++ tag_suffix)) := by
    intro image_name
    exact foldl_appendish _ _ (fun acc tag => hinner image_name tag acc) tags
  have heq : generate_final_registry_tags b registry user tags =
      (_IMAGE_REGISTRY_NAMES b.IMAGE_TYPE).flatMap (fun image_name =>
        tags.flatMap (fun tag =>
          b.TAG_SUFFIXES.map (fun tag_suffix =>
            registry ++ "/" ++ user ++ "/" ++ image_name ++ ":" ++ tag ++ tag_suffix))) := by
    unfold generate_final_registry_tags
    rw [foldl_appendish _ _ (fun acc image_name => hmid image_name acc)]
    rfl
  refine ⟨heq, ?_, by rfl⟩
  rw [heq]
  rw [length_flatMap_const _ _ (tags.length * b.TAG_SUFFIXES.length) ?_,
    Nat.mul_assoc]
  intro n hn
  rw [length_flatMap_const _ _ b.TAG_SUFFIXES.length (fun t ht => by simp)]

lemma pyDictInsert_fresh (d : List (String × PLEntry)) (k : String) (v : PLEntry)
    (h : ∀ kv ∈ d, kv.1 ≠ k) : pyDictInsert d k v = d ++ [(k, v)] := by
  rw [pyDictInsert, if_neg]
  simp only [List.any_eq_true, not_exists, not_and]
  intro kv hkv
  simp [h kv hkv]

lemma foldl_insert_values (pred : PLEntry → Prop) [DecidablePred pred] :
    ∀ (entries : List PLEntry) (d0 : List (String × PLEntry)),
      (entries.map PLEntry.cidr).Nodup →
      (∀ kv ∈ d0, ∀ e ∈ entries, kv.1 ≠ e.cidr) →
      (entries.foldl (fun d e => if pred e then pyDictInsert d e.cidr e else d)
        d0).map Prod.snd =
        d0.map Prod.snd ++ entries.filter (fun e => decide (pred e)) := by
  intro entries
  induction entries with
  | nil => intro d0 _ _; simp
  | cons e rest ih =>
    intro d0 hnd hdis
    rw [List.map_cons, List.nodup_cons] at hnd
    rw [List.foldl_cons]
    by_cases hp : pred e
    · rw [if_pos hp,
        pyDictInsert_fresh d0 e.cidr e (fun kv hkv => hdis kv hkv e (by simp))]
      rw [ih (d0 ++ [(e.cidr, e)]) hnd.2 ?_]
      · simp [List.filter_cons, hp]
      · intro kv hkv e2 he2
        rcases List.mem_append.mp hkv with h1 | h2
        · exact hdis kv h1 e2 (by simp [he2])
        · simp only [List.mem_singleton] at h2
          subst h2
          intro hc
          have hc2 : e.cidr = e2.cidr := hc
          have hm : e2.cidr ∈ rest.map PLEntry.cidr :=
            List.mem_map_of_mem PLEntry.cidr he2
          rw [← hc2] at hm
          exact hnd.1 hm
    · rw [if_neg hp, ih d0 hnd.2 (fun kv hkv e2 he2 => hdis kv hkv e2 (by simp [he2]))]
      simp [List.filter_cons, hp]

/-- C9: with no workflow prefix supplied, cleanup_old_prefix_list_entries
schedules exactly those entries whose description timestamp is at least the
420 second removal threshold in the past, in order; for the two entries aged
1000 and 100 seconds only the first is scheduled. -/
theorem C9_prefix_list_age_cleanup (entries : List PLEntry) (now : Int)
    (hnd : (entries.map PLEntry.cidr).Nodup) :
    cleanup_old_prefix_list_entries entries now none =
      .ok (entries.filter
        (fun e => e.timeVal ≤ now - PREFIX_LIST_ENTRY_REMOVE_THRESHOLD)) ∧
    PREFIX_LIST_ENTRY_REMOVE_THRESHOLD = 420 ∧
    cleanup_old_prefix_list_entries
        [⟨"203.0.113.5/32", 100000 - 1000, none⟩,
         ⟨"203.0.113.9/32", 100000 - 100, none⟩] 100000 none =
      .ok [⟨"203.0.113.5/32", 100000 - 1000, none⟩] := by
  refine ⟨?_, rfl, by rfl⟩
  rw [cleanup_old_prefix_list_entries]
  simp only [pyTruthy, if_false, Bool.false_eq_true]
  rw [foldl_insert_values _ entries [] hnd (by simp)]
  rfl

/-- Witness for C9: the general age-based scheduling theorem applied at two
concrete entries with distinct CIDRs. -/
theorem C9_prefix_list_age_cleanup_witness :
    cleanup_old_prefix_list_entries
        [⟨"198.51.100.1/32", 500, none⟩, ⟨"198.51.100.2/32", 900, none⟩] 1000 none =
      .ok ([⟨"198.51.100.1/32", 500, none⟩,
            ⟨"198.51.100.2/32", 900, none⟩].filter
        (fun e => e.timeVal ≤ 1000 - PREFIX_LIST_ENTRY_REMOVE_THRESHOLD)) := by
  exact (C9_prefix_list_age_cleanup
    [⟨"198.51.100.1/32", 500, none⟩, ⟨"198.51.100.2/32", 900, none⟩]
    1000 (by decide)).1

/-- C6: for every node whose name does not contain the automation marker,
destroy_node_and_cleanup raises an assertion before issuing any destructive
call: no node destroy and no volume destroy happens. -/
theorem C6_teardown_refuses_unmarked_node (w : Ec2World) (node : Ec2Node)
    (h : strContains INSTANCE_NAME_STRING node.name = false) :
    destroy_node_and_cleanup w node =
      ([], .exn (.assertionError
        ("Refusing to delete node without " ++ INSTANCE_NAME_STRING ++
          " in the name"))) := by
  simp [destroy_node_and_cleanup, h]

/-- Witness for C6: a production-looking node name without the marker is
refused even with volumes attached. -/
theorem C6_teardown_refuses_unmarked_node_witness :
    destroy_node_and_cleanup
        ⟨none, [⟨"vol-1", 8, some "i-0abc"⟩], true⟩ ⟨"db-prod-1", "i-0abc"⟩ =
      ([], .exn (.assertionError
        ("Refusing to delete node without " ++ INSTANCE_NAME_STRING ++
          " in the name"))) := by
  exact C6_teardown_refuses_unmarked_node
    ⟨none, [⟨"vol-1", 8, some "i-0abc"⟩], true⟩ ⟨"db-prod-1", "i-0abc"⟩ (by decide)

lemma depsLookup_depsAdd_self (st : DepsState) (d : String) (a : CpuArch) :
    a ∈ depsLookup (depsAdd st d a) d := by
  unfold depsLookup depsAdd
  simp only [if_pos rfl]
  by_cases h : a ∈ st d
  · simp [h]
  · simp [h]

/-- C4: starting from a registry that does not yet record the pair, the
first build_agent_image_dependencies call performs exactly one external
buildx invocation and returns the pair result directory; the second call
for the same pair performs no build - only the optional copy into the
output directory - and returns the same result directory path. -/
theorem C4_dependency_cache_idempotent (st : DepsState) (ex1 ex2 : Bool)
    (d : String) (a : CpuArch) (od : Option PyPath)
    (hd : d = "ubuntu" ∨ d = "alpine")
    (hnew : a ∉ depsLookup st d) :
    ((build_agent_image_dependencies st ex1 false d a od).events.filter
      DepEvent.isBuild).length = 1 ∧
    (build_agent_image_dependencies st ex1 false d a od).result =
      .ok (dependenciesResultDir d a) ∧
    (build_agent_image_dependencies
        (build_agent_image_dependencies st ex1 false d a od).state
        ex2 false d a od).events =
      depsCopyEvents (dependenciesResultDir d a) od ∧
    (build_agent_image_dependencies
        (build_agent_image_dependencies st ex1 false d a od).state
        ex2 false d a od).result = .ok (dependenciesResultDir d a) := by
  have hfind : BASE_DISTRO_IMAGE_NAMES.find? (fun kv => kv.1 == d) =
      some (d, if d = "ubuntu" then UBUNTU_BASE_IMAGE else ALPINE_BASE_IMAGE) := by
    rcases hd with h | h <;> subst h <;> rfl
  have h1 : build_agent_image_dependencies st ex1 false d a od =
      ⟨depsAdd st d a,
       depsBuildEvents ex1 (dependenciesResultDir d a)
           (depsBuildxParams d a
             (if d = "ubuntu" then UBUNTU_BASE_IMAGE else ALPINE_BASE_IMAGE) od) ++
         depsCopyEvents (dependenciesResultDir d a) od,
       .ok (dependenciesResultDir d a)⟩ := by
    unfold build_agent_image_dependencies
    rw [if_neg hnew, hfind]
    rfl
  have h2 : build_agent_image_dependencies (depsAdd st d a) ex2 false d a od =
      ⟨depsAdd st d a, depsCopyEvents (dependenciesResultDir d a) od,
       .ok (dependenciesResultDir d a)⟩ := by
    unfold build_agent_image_dependencies
    rw [if_pos (depsLookup_depsAdd_self st d a)]
  rw [h1]
  dsimp only
  rw [h2]
  refine ⟨?_, rfl, rfl, rfl⟩
  rcases od with _ | o <;> rcases ex1 with _ | _ <;>
    simp [DepEvent.isBuild, List.filter_append, depsBuildEvents, depsCopyEvents]

/-- Witness for C4: concrete first and second calls for (ubuntu, x86_64)
with an output directory, starting from the cold registry. -/
theorem C4_dependency_cache_idempotent_witness :
    ((build_agent_image_dependencies (fun _ => []) false false "ubuntu"
        CpuArch.x86_64 (some ⟨["tmp"], "deps-out"⟩)).events.filter
      DepEvent.isBuild).length = 1 ∧
    (build_agent_image_dependencies (fun _ => []) false false "ubuntu"
        CpuArch.x86_64 (some ⟨["tmp"], "deps-out"⟩)).result =
      .ok (dependenciesResultDir "ubuntu" CpuArch.x86_64) ∧
    (build_agent_image_dependencies
        (build_agent_image_dependencies (fun _ => []) false false "ubuntu"
          CpuArch.x86_64 (some ⟨["tmp"], "deps-out"⟩)).state
        false false "ubuntu" CpuArch.x86_64 (some ⟨["tmp"], "deps-out"⟩)).events =
      depsCopyEvents (dependenciesResultDir "ubuntu" CpuArch.x86_64)
        (some ⟨["tmp"], "deps-out"⟩) ∧
    (build_agent_image_dependencies
        (build_agent_image_dependencies (fun _ => []) false false "ubuntu"
          CpuArch.x86_64 (some ⟨["tmp"], "deps-out"⟩)).state
        false false "ubuntu" CpuArch.x86_64 (some ⟨["tmp"], "deps-out"⟩)).result =
      .ok (dependenciesResultDir "ubuntu" CpuArch.x86_64) := by
  exact C4_dependency_cache_idempotent (fun _ => []) false false "ubuntu"
    CpuArch.x86_64 (some ⟨["tmp"], "deps-out"⟩) (Or.inl rfl) (by simp [depsLookup])

lemma listStartsWithB_append_of_le (pat l1 l2 : List Char)
    (h : pat.length ≤ l1.length) :
    listStartsWithB pat (l1 ++ l2) = listStartsWithB pat l1 := by
  induction pat generalizing l1 with
  | nil => rfl
  | cons p ps ih =>
    cases l1 with
    | nil => simp at h
    | cons c cs =>
      simp only [List.cons_append, listStartsWithB, List.append_eq]
      rw [ih cs (by simpa using h)]

lemma toList_append (a b : String) : (a ++ b).toList = a.toList ++ b.toList := by
  simp [String.toList, String.data_append]

lemma isCacheDirective_append_false (lit s : String)
    (h12 : 12 ≤ lit.length)
    (hf : listStartsWithB "--cache-from".toList lit.toList = false)
    (ht : listStartsWithB "--cache-to".toList lit.toList = false) :
    isCacheDirective (lit ++ s) = false := by
  have hlist : lit.toList.length = lit.length := rfl
  rw [isCacheDirective, toList_append,
    listStartsWithB_append_of_le _ _ _ (by rw [hlist]; exact le_trans (by decide) h12),
    listStartsWithB_append_of_le _ _ _ (by rw [hlist]; exact le_trans (by decide) h12),
    hf, ht]
  rfl

lemma finalBaseCmdArgs_eq (env : BuildEnv) (b : String) (wd : PyPath) :
    buildxCmdArgs env (finalImageBaseBuildxParams b wd) =
      ["docker", "buildx", "build",
       "-f=" ++ (imagesParentDir.child "dependencies.Dockerfile").toStr,
       "--progress=plain",
       "--platform=linux/amd64", "--platform=linux/arm64", "--platform=linux/arm/v7",
       "--build-arg=" ++ "BASE_DISTRO" ++ "=" ++ b,
       "--build-arg=" ++ "AGENT_REQUIREMENTS" ++ "=" ++ AGENT_REQUIREMENTS,
       "--build-arg=" ++ "TEST_REQUIREMENTS" ++ "=" ++ REQUIREMENTS_DEV_COVERAGE,
       "--target=final_image_base",
       "--output=" ++ ("type=oci,dest=" ++
         (ociTarballPath (wd.child "final_image_base") true).toStr),
       imagesParentDir.toStr] := rfl

lemma finalBaseCmdArgs_no_cache (env : BuildEnv) (b : String) (wd : PyPath) :
    ∀ s ∈ buildxCmdArgs env (finalImageBaseBuildxParams b wd),
      isCacheDirective s = false := by
  intro s hs
  rw [finalBaseCmdArgs_eq] at hs
  simp only [List.mem_cons, List.not_mem_nil, or_false] at hs
  rcases hs with h | h | h | h | h | h | h | h | h | h | h | h | h | h <;> subst h
  · decide
  · decide
  · decide
  · decide
  · decide
  · decide
  · decide
  · decide
  · exact isCacheDirective_append_false
      ("--build-arg=" ++ "BASE_DISTRO" ++ "=") b (by decide) (by decide) (by decide)
  · decide
  · decide
  · decide
  · rw [← String.append_assoc]
    exact isCacheDirective_append_false ("--output=" ++ "type=oci,dest=")
      (ociTarballPath (wd.child "final_image_base") true).toStr
      (by decide) (by decide) (by decide)
  · decide

/-- C5: across any number of _build_final_image_base_oci_layout calls in one
process, the class-level flag is monotone (true as soon as one call has run,
never reset), the underlying build runs at most once (never when the flag
started true, exactly once otherwise), and every issued build carries no
cache name and an argument list free of cache-from and cache-to
directives. -/
theorem C5_final_image_base_built_once_uncached (env : BuildEnv) (b : String)
    (wd : PyPath) (n : Nat) (flag0 : Bool) :
    (iterateFinalBaseBuilds b wd n flag0).1 = (flag0 || n != 0) ∧
    (iterateFinalBaseBuilds b wd n flag0).2.length =
      (if flag0 then 0 else min n 1) ∧
    ∀ p ∈ (iterateFinalBaseBuilds b wd n flag0).2,
      p.cache_name = none ∧
      ∀ s ∈ buildxCmdArgs env p, isCacheDirective s = false := by
  induction n generalizing flag0 with
  | zero =>
    refine ⟨by simp [iterateFinalBaseBuilds],
      by cases flag0 <;> simp [iterateFinalBaseBuilds], ?_⟩
    intro p hp
    simp [iterateFinalBaseBuilds] at hp
  | succ n ih =>
    cases flag0 with
    | true =>
      have hstep : _build_final_image_base_oci_layout true b wd =
          (true, [], wd.child "final_image_base") := rfl
      obtain ⟨ihf, ihl, ihp⟩ := ih true
      refine ⟨?_, ?_, ?_⟩
      · simp [iterateFinalBaseBuilds, hstep, ihf]
      · simp [iterateFinalBaseBuilds, hstep, ihl]
      · intro p hp
        simp only [iterateFinalBaseBuilds, hstep, List.nil_append] at hp
        exact ihp p hp
    | false =>
      have hstep : _build_final_image_base_oci_layout false b wd =
          (true, [finalImageBaseBuildxParams b wd], wd.child "final_image_base") :=
        rfl
      obtain ⟨ihf, ihl, ihp⟩ := ih true
      have hnil : (iterateFinalBaseBuilds b wd n true).2 = [] := by
        rw [← List.length_eq_zero]
        simpa using ihl
      refine ⟨?_, ?_, ?_⟩
      · simp [iterateFinalBaseBuilds, hstep, ihf]
      · simp [iterateFinalBaseBuilds, hstep, hnil]
      · intro p hp
        simp only [iterateFinalBaseBuilds, hstep, hnil, List.append_nil,
          List.mem_singleton] at hp
        subst hp
        exact ⟨rfl, finalBaseCmdArgs_no_cache env b wd⟩

/-- Witness for C5: three successive calls starting from a cold flag issue
exactly one build and leave the flag set. -/
theorem C5_final_image_base_built_once_uncached_witness :
    (iterateFinalBaseBuilds "ubuntu" ⟨["work"], "wd"⟩ 3 false).2.length =
      (if false then 0 else min 3 1) ∧
    (iterateFinalBaseBuilds "ubuntu" ⟨["work"], "wd"⟩ 3 false).1 =
      (false || (3 != 0)) := by
  exact ⟨(C5_final_image_base_built_once_uncached ⟨false, "", false⟩ "ubuntu"
      ⟨["work"], "wd"⟩ 3 false).2.1,
    (C5_final_image_base_built_once_uncached ⟨false, "", false⟩ "ubuntu"
      ⟨["work"], "wd"⟩ 3 false).1⟩
